import Mathlib

/-!
Shallow embedding of the tuner plugin framework of `src/src/libbpftune.c`:
the tuner registry, the ring-buffer event dispatcher, the namespace-cookie
state lists and the sysctl transaction layer.  Pure C functions become Lean
functions; the stateful sysctl/netns code is modelled by explicit passing of
a `World` value capturing the kernel state it touches (current network
namespace, open namespace descriptors, per-namespace sysctl file contents,
write-open permissions and a counter of open-for-write attempts).
Line numbers in comments refer to `src/src/libbpftune.c`.
-/

/-- Modelled from the spec: the compile-time maximum number of tuner modules
(`BPFTUNE_MAX_TUNERS`, defined in the header `libbpftune.h`, which is not part
of `src/`; the spec says only "capacity is fixed at a compile-time maximum").
The exact value is immaterial to every claim below. -/
def BPFTUNE_MAX_TUNERS : Nat := 64

/-- A sysctl tunable has at most three numeric values: `long
old_values[BPFTUNE_MAX_VALUES]` and `fscanf(fp, "%ld %ld %ld", ...)`
(lines 592-593, 618). -/
def BPFTUNE_MAX_VALUES : Nat := 3

/-- Modelled from the spec: the size in bytes of the fixed event-header layout
(`sizeof(struct bpftune_event)`; the struct is declared in the missing header).
Only the comparison of a delivered record's size against this fixed bound
matters to the claims. -/
def BPFTUNE_EVENT_HEADER_SIZE : Nat := 24

/-- syslog severity used on the dispatcher drop paths (`LOG_ERR`). -/
def LOG_ERR : Nat := 3

/-- syslog severity used on the dispatcher delivery path (`LOG_DEBUG`). -/
def LOG_DEBUG : Nat := 7

/-- The kernel-state the sysctl transaction layer and the namespace switcher
touch.  `ctx` is the calling process's current network-namespace identity;
`fdns` maps each open namespace descriptor (a positive number) to the
namespace it designates; `nextFd` is the descriptor the next successful
`open` returns; `selfNsOpenOk` says whether `open("/proc/self/ns/net")`
succeeds; `sysctl ns path` gives the integers readable at `path` in
namespace `ns` (`none` = the file cannot be opened for reading);
`writable ns path` says whether `fopen(path, "w")` succeeds there; `wopens`
counts open-for-write attempts (the spec's "fake filesystem counting
open-for-write calls"). -/
structure World where
  ctx : Nat
  fdns : Nat → Option Nat
  nextFd : Nat
  selfNsOpenOk : Bool
  sysctl : Nat → String → Option (List Int)
  writable : Nat → String → Bool
  wopens : Nat

/-- The character loop of `bpftune_sysctl_name_to_path` (lines 567-569):
every `.` becomes `/`. -/
def dotsToSlashes : List Char → List Char
  | [] => []
  | c :: cs => (if c = '.' then '/' else c) :: dotsToSlashes cs

/-- `bpftune_sysctl_name_to_path` (lines 561-570): prefix the dotted name with
`/proc/sys/` and turn every `.` into `/`. -/
def bpftune_sysctl_name_to_path (name : String) : String :=
  String.mk (dotsToSlashes ("/proc/sys/" ++ name).data)

/-- `bpftune_netns_set` (lines 859-889).  Returns the new world, the result
(`0` on success, negative `-errno` on failure) and the saved original-netns
descriptor (`0` unless `orig_fd` was requested and the switch succeeded).
A `new_fd` of `0` means "no switch needed".  On a switch, the current netns is
captured by opening `/proc/self/ns/net` (allocating descriptor `nextFd`);
`setns(new_fd)` succeeds exactly when `new_fd` designates a namespace.  The
captured descriptor is kept open only when the caller asked for it
(`if (!err && orig_fd) *orig_fd = fd; else close(fd);`). -/
def bpftune_netns_set (w : World) (newFd : Nat) (wantOrig : Bool) :
    World × Int × Nat :=
  if newFd = 0 then
    (w, 0, 0)
  else if ¬ w.selfNsOpenOk then
    -- could not get current netns fd: error, context unchanged (lines 869-873)
    (w, -24, 0)
  else
    match w.fdns newFd with
    | none =>
      -- setns failed: fd closed, context unchanged (lines 875-882)
      ({ w with nextFd := w.nextFd + 1 }, -22, 0)
    | some ns =>
      if wantOrig then
        ({ w with ctx := ns,
                  fdns := fun x => if x = w.nextFd then some w.ctx else w.fdns x,
                  nextFd := w.nextFd + 1 }, 0, w.nextFd)
      else
        -- restore caller: the captured fd is closed again (line 887)
        ({ w with ctx := ns, nextFd := w.nextFd + 1 }, 0, 0)

/-- `bpftune_sysctl_read` (lines 572-614).  Switches to `netns_fd`, opens the
translated path for reading, scans up to three integers, restores the
namespace via the `out:` label and returns `num_values` together with the
scanned values.  A file whose scan matches no integer is modelled as
`some []` (the code sets `err = -ENOENT` there); an unopenable file is
`none` (the code sets `err = -errno`).  Note the function returns
`num_values` at `out:` (line 613) on every path past the initial switch:
the computed `err` is only logged, never returned. -/
def bpftune_sysctl_read (w : World) (netnsFd : Nat) (name : String) :
    World × Int × List Int :=
  let path := bpftune_sysctl_name_to_path name
  match bpftune_netns_set w netnsFd true with
  | (w1, err, orig) =>
    if err < 0 then
      -- line 582-583: return err without any restore (nothing was switched)
      (w1, err, [])
    else
      match w1.sysctl w1.ctx path with
      | none =>
        -- fopen failed (lines 585-591): err = -errno, goto out;
        -- out: restores the netns and returns num_values, still 0 (line 613)
        ((bpftune_netns_set w1 orig false).1, 0, [])
      | some vs =>
        -- fscanf "%ld %ld %ld" matches min (vs.length) 3 items (lines 592-598);
        -- out: restores the netns and returns num_values (line 613)
        let n : Nat := min vs.length BPFTUNE_MAX_VALUES
        ((bpftune_netns_set w1 orig false).1, (n : Int), vs.take BPFTUNE_MAX_VALUES)

/-- `bpftune_sysctl_write` (lines 616-666).  Switches to `netns_fd`, re-reads
the current values (without a further switch: `bpftune_sysctl_read(0, ...)`),
skips the write when count and contents already match (lines 639-646 —
note the skip is `return 0`, not `goto out`: it does NOT restore the
namespace), otherwise attempts `fopen(path, "w")` (counted in `wopens`) and
writes all values.  Every path through `out:` restores the namespace and
returns `0` (line 665) — the `err` recorded on the open-failure and
read-failure paths is never returned. -/
def bpftune_sysctl_write (w : World) (netnsFd : Nat) (name : String)
    (values : List Int) : World × Int :=
  let path := bpftune_sysctl_name_to_path name
  match bpftune_netns_set w netnsFd true with
  | (w1, err, orig) =>
    if err < 0 then
      (w1, err)
    else
      match bpftune_sysctl_read w1 0 name with
      | (w2, oldn, oldvals) =>
        if oldn < 0 then
          -- lines 635-638: err = old_num_values; goto out; (returns 0)
          ((bpftune_netns_set w2 orig false).1, 0)
        else if (values.length : Int) = oldn ∧ values = oldvals.take values.length then
          -- lines 639-646: values already match: return 0 WITHOUT restore
          (w2, 0)
        else
          -- line 647: fopen(path, "w") — an open-for-write attempt
          let w3 := { w2 with wopens := w2.wopens + 1 }
          if w3.writable w3.ctx path then
            let w4 := { w3 with sysctl := fun ns p =>
              if ns = w3.ctx ∧ p = path then some values else w3.sysctl ns p }
            ((bpftune_netns_set w4 orig false).1, 0)
          else
            -- lines 648-653: err = -errno; goto out; (returns 0, line 665)
            ((bpftune_netns_set w3 orig false).1, 0)

/-- `enum bpftune_state` as the spec's lifecycle states (`BPFTUNE_ACTIVE` /
`BPFTUNE_INACTIVE`). -/
inductive BpftuneState where
  | active
  | inactive
deriving DecidableEq

/-- `enum bpftunable_type`: the setting class of a tunable descriptor
(`BPFTUNABLE_SYSCTL` versus anything else). -/
inductive BpftunableType where
  | sysctl
  | other
deriving DecidableEq

/-- `struct bpftunable_desc`: name (dotted kernel-setting identifier),
declared value count, namespace-scoping flag and setting class. -/
structure BpftunableDesc where
  name : String
  num_values : Nat
  namespaced : Bool
  type : BpftunableType
deriving DecidableEq

/-- `struct bpftunable`: descriptor plus initial/current values and the
2×S per-scenario occurrence counters (`stats.global_ns` /
`stats.nonglobal_ns`), indexed by scenario. -/
structure Bpftunable where
  desc : BpftunableDesc
  initial_values : List Int
  current_values : List Int
  stats_global : List Nat
  stats_nonglobal : List Nat
deriving DecidableEq

/-- `struct bpftunable_scenario`: name and free-text description. -/
structure BpftunableScenario where
  name : String
  description : String
deriving DecidableEq

/-- `struct bpftuner` (the fields the claims touch): identity, name,
lifecycle state, the three dlsym-bound entry points (modelled by presence
flags; the registry claims only need to know whether each is bound), the
tunable and scenario tables, and the cookies of the netns nodes linked
after the embedded list head `tuner->netns`. -/
structure Bpftuner where
  id : Nat
  name : String
  state : BpftuneState
  hasFini : Bool
  hasEventHandler : Bool
  tunables : List Bpftunable
  scenarios : List BpftunableScenario
  netnsCookies : List Nat
deriving DecidableEq

/-- The global registry: `bpftune_tuners[0 .. bpftune_num_tuners)` (line 395);
`bpftune_num_tuners` is the list length. -/
structure Registry where
  tuners : List Bpftuner
deriving DecidableEq

/-- `bpftune_tuner` (lines 475-480): the registered tuner at `index`, or
NULL when `index` is not below `bpftune_num_tuners`. -/
def bpftune_tuner (reg : Registry) (index : Nat) : Option Bpftuner :=
  if index < reg.tuners.length then reg.tuners.get? index else none

/-- A dynamically loadable tuner module as `bpftuner_init` sees it:
whether `dlopen` resolves it, which of the three entry points `dlsym`
finds, and what its `init` returns when present. -/
structure TunerModule where
  resolvable : Bool
  hasInit : Bool
  initRet : Int
  hasFini : Bool
  hasEventHandler : Bool
  name : String
deriving DecidableEq

/-- Outcome of `bpftuner_init`: a registered tuner (its id), a clean NULL
return, or the invocation of a NULL function pointer (`tuner->init(tuner)`
with `dlsym` having returned NULL — undefined behaviour in the C). -/
inductive TunerInitResult where
  | ok (id : Nat)
  | fail
  | nullCall
deriving DecidableEq

/-- The tuner stored by a successful `bpftuner_init`: dense identity,
state `BPFTUNE_ACTIVE`, the dlsym-bound entry points, empty tables
(the module's `init` populates them later via `bpftuner_tunables_init`). -/
def mkTuner (id : Nat) (m : TunerModule) : Bpftuner :=
  { id := id, name := m.name, state := .active, hasFini := m.hasFini,
    hasEventHandler := m.hasEventHandler, tunables := [], scenarios := [],
    netnsCookies := [] }

/-- `bpftuner_init` (lines 400-441).  `dlopen` failure: free and return NULL.
The three `dlsym` results are stored UNCHECKED; `tuner->init(tuner)` is then
invoked unconditionally (line 427) — a missing `init` symbol means calling a
NULL pointer.  A non-zero `init` result: dlclose, free, NULL.  Otherwise the
tuner is appended with `id = bpftune_num_tuners` and state ACTIVE
(lines 435-437) — there is no capacity check against `BPFTUNE_MAX_TUNERS`
before the store `bpftune_tuners[bpftune_num_tuners++] = tuner`. -/
def bpftuner_init (reg : Registry) (m : TunerModule) : Registry × TunerInitResult :=
  if ¬ m.resolvable then
    (reg, .fail)
  else if ¬ m.hasInit then
    (reg, .nullCall)
  else if m.initRet ≠ 0 then
    (reg, .fail)
  else
    ({ tuners := reg.tuners ++ [mkTuner reg.tuners.length m] },
     .ok reg.tuners.length)

/-- `struct bpftune_event`'s fixed header fields (the payload is opaque). -/
structure BpftuneEvent where
  tuner_id : Nat
  scenario_id : Nat
  netns_cookie : Nat
deriving DecidableEq

/-- `bpftune_ringbuf_event_read` (lines 487-514).  Returns the callback
result (always `0`), the id of the tuner whose `event_handler` entry is
invoked (`none` on every drop path) and the levels of the log lines
emitted.  A record smaller than the event header, a tuner id above
`BPFTUNE_MAX_TUNERS`, and an id with no registered tuner are each dropped
with a `LOG_ERR` line and result `0`. -/
def bpftune_ringbuf_event_read (reg : Registry) (size : Nat)
    (ev : BpftuneEvent) : Int × Option Nat × List Nat :=
  if size < BPFTUNE_EVENT_HEADER_SIZE then
    (0, none, [LOG_ERR])
  else if BPFTUNE_MAX_TUNERS < ev.tuner_id then
    (0, none, [LOG_ERR])
  else
    match bpftune_tuner reg ev.tuner_id with
    | none => (0, none, [LOG_ERR])
    | some _ => (0, some ev.tuner_id, [LOG_DEBUG])

/-- `bpftuner_tunable` (lines 712-717): the tunable at `index`, or NULL. -/
def bpftuner_tunable (t : Bpftuner) (index : Nat) : Option Bpftunable :=
  if index < t.tunables.length then t.tunables.get? index else none

/-- Increment position `i` of a counter array (no-op out of range; the C
arrays are fixed-size and indices stay in range on every modelled path). -/
def bumpAt (l : List Nat) (i : Nat) : List Nat :=
  l.set i (l.getD i 0 + 1)

/-- `bpftuner_tunable_stats_update` (lines 719-731): bump the scenario
counter of the bucket selected by `global_ns`. -/
def bpftuner_tunable_stats_update (tu : Bpftunable) (scenario : Nat)
    (global_ns : Bool) : Bpftunable :=
  if global_ns then
    { tu with stats_global := bumpAt tu.stats_global scenario }
  else
    { tu with stats_nonglobal := bumpAt tu.stats_nonglobal scenario }

/-- An observable action of the unload path: a summary record for one
(tunable, scenario, scope) triple, or the invocation of the module's
`fini` entry point. -/
inductive FiniAction where
  | summary (tunable scenario : Nat) (globalNs : Bool)
  | callFini
deriving DecidableEq

/-- The summary branch of `bpftuner_scenario_log` (lines 733-769):
`global_ns = (netns_fd == 0)`; the bucket's scenario counter is read and
nothing is emitted when it is zero; otherwise one summary record (the
count-annotated line, plus the initial→current line for sysctl tunables)
is emitted.  A NULL tunable cannot occur on the modelled callers
(`bpftuner_fini` iterates `tunable < num_tunables`). -/
def bpftuner_scenario_log_summary (t : Bpftuner) (tunable scenario : Nat)
    (netnsFd : Nat) : List FiniAction :=
  match bpftuner_tunable t tunable with
  | none => []
  | some tu =>
    let global_ns := netnsFd = 0
    let count := if global_ns then tu.stats_global.getD scenario 0
                 else tu.stats_nonglobal.getD scenario 0
    if count = 0 then [] else [.summary tunable scenario global_ns]

/-- `bpftuner_fini` (lines 450-473).  NULL tuner or state ≠ ACTIVE: nothing
happens.  Otherwise, for each tunable index i (outer loop) and scenario
index j (inner loop), the summary is logged first for `netns_fd = 0`
(global bucket) then for `netns_fd = 1` (non-global bucket); afterwards
`tuner->fini(tuner)` is invoked when bound, and the state is set to the
requested final state.  The returned action list is the chronological
trace. -/
def bpftuner_fini (ot : Option Bpftuner) (state : BpftuneState) :
    Option Bpftuner × List FiniAction :=
  match ot with
  | none => (none, [])
  | some t =>
    if t.state ≠ BpftuneState.active then
      (some t, [])
    else
      let summaries := (List.range t.tunables.length).flatMap (fun i =>
        (List.range t.scenarios.length).flatMap (fun j =>
          bpftuner_scenario_log_summary t i j 0 ++
          bpftuner_scenario_log_summary t i j 1))
      (some { t with state := state },
       summaries ++ (if t.hasFini then [FiniAction.callFini] else []))

/-- The element-wise copy `for (i = 0; i < desc.num_values; i++)
current_values[i] = values[i]` (lines 807-808). -/
def overwriteValues (cur vals : List Int) (n : Nat) : List Int :=
  vals.take n ++ cur.drop n

/-- `bpftuner_tunable_sysctl_write` (lines 781-812).  Missing tunable index:
`-EINVAL`.  The operative namespace descriptor is the event's only for a
namespaced tunable, else the global namespace (line 795).  On a `0` result
from `bpftune_sysctl_write`, the scenario occurrence is recorded (non-summary
`bpftuner_scenario_log`, with `global_ns = (netns_fd == 0)`) and
`current_values` is overwritten with the requested values. -/
def bpftuner_tunable_sysctl_write (w : World) (tuner : Bpftuner)
    (tunable scenario : Nat) (netnsFd : Nat) (values : List Int) :
    World × Bpftuner × Int :=
  match bpftuner_tunable tuner tunable with
  | none => (w, tuner, -22)
  | some t =>
    let fd := if t.desc.namespaced then netnsFd else 0
    match bpftune_sysctl_write w fd t.desc.name values with
    | (w1, ret) =>
      if ret = 0 then
        let t1 := bpftuner_tunable_stats_update t scenario (netnsFd = 0)
        let cur := overwriteValues t1.current_values values t.desc.num_values
        let t2 := { t1 with current_values := cur }
        (w1, { tuner with tunables := tuner.tunables.set tunable t2 }, 0)
      else
        (w1, tuner, ret)

/-- `bpftuner_netns_from_cookie` (lines 1101-1123), as the boolean "a netns
entry was found".  When the cookie feature is unsupported the answer is
always NULL; otherwise the registry is scanned for tuners with the given id,
cookie `0` answers the embedded list head, and any other cookie is looked up
in that tuner's netns list. -/
def bpftuner_netns_from_cookie (supported : Bool) (reg : Registry)
    (tuner_id cookie : Nat) : Bool :=
  if ¬ supported then false
  else reg.tuners.any (fun t =>
    t.id == tuner_id && (cookie == 0 || t.netnsCookies.contains cookie))

/-- `bpftuner_netns_init` (lines 1061-1078) for the tuner stored at registry
position `idx`: if `bpftuner_netns_from_cookie` finds an entry for
(tuner->id, cookie), nothing happens; otherwise a new node carrying the
cookie is appended at the tail of that tuner's netns list (allocation
assumed to succeed). -/
def bpftuner_netns_init (supported : Bool) (reg : Registry)
    (idx cookie : Nat) : Registry :=
  match reg.tuners.get? idx with
  | none => reg
  | some t =>
    if bpftuner_netns_from_cookie supported reg t.id cookie then reg
    else { tuners := reg.tuners.set idx
            { t with netnsCookies := t.netnsCookies ++ [cookie] } }

/-- Any sequence of per-namespace initialisations (`bpftuner_netns_init`
calls), e.g. the discovery sweep run any number of times: each element of
`ops` is a (registry position, cookie) pair. -/
def bpftuner_netns_init_seq (supported : Bool) (reg : Registry)
    (ops : List (Nat × Nat)) : Registry :=
  ops.foldl (fun r op => bpftuner_netns_init supported r op.1 op.2) reg

/-- The `NamespaceState` cookie-uniqueness invariant of the spec: within
each module's namespace-state set, no cookie occurs twice. -/
def netnsCookiesUnique (reg : Registry) : Prop :=
  ∀ t ∈ reg.tuners, t.netnsCookies.Nodup

instance (reg : Registry) : Decidable (netnsCookiesUnique reg) :=
  inferInstanceAs (Decidable (∀ t ∈ reg.tuners, t.netnsCookies.Nodup))

/-- The canonical unload ordering: every (tunable, scenario, scope) triple in
tunable-index-major, scenario-index-minor order, global scope before
non-global scope. -/
def finiQuadList (t : Bpftuner) : List (Nat × Nat × Bool) :=
  (List.range t.tunables.length).flatMap (fun i =>
    (List.range t.scenarios.length).flatMap (fun j =>
      [(i, j, true), (i, j, false)]))

/-- The occurrence counter selected by a (tunable, scenario, scope) triple. -/
def finiQuadCount (t : Bpftuner) : Nat × Nat × Bool → Nat
  | (i, j, g) =>
    match bpftuner_tunable t i with
    | none => 0
    | some tu =>
      if g then tu.stats_global.getD j 0 else tu.stats_nonglobal.getD j 0

/-! Concrete inputs used by the counterexample/witness theorems below. -/

/-- A world whose thread runs in namespace `0`, with descriptor `3` open on
namespace `1`, where `net.core.somaxconn` currently reads `5` inside
namespace `1`. -/
def w_c1 : World :=
  { ctx := 0,
    fdns := fun x => if x = 3 then some 1 else none,
    nextFd := 10, selfNsOpenOk := true,
    sysctl := fun ns p =>
      if ns = 1 ∧ p = "/proc/sys/net/core/somaxconn" then some [5] else none,
    writable := fun _ _ => true, wopens := 0 }

def desc_c2 : BpftunableDesc :=
  { name := "net.core.somaxconn", num_values := 1, namespaced := false,
    type := .sysctl }

def tunable_c2 : Bpftunable :=
  { desc := desc_c2, initial_values := [5, 0, 0], current_values := [5, 0, 0],
    stats_global := [0], stats_nonglobal := [0] }

def tuner_c2 : Bpftuner :=
  { id := 0, name := "t", state := .active, hasFini := true,
    hasEventHandler := true, tunables := [tunable_c2],
    scenarios := [{ name := "s", description := "d" }], netnsCookies := [] }

/-- A world where the sysctl reads `5` in the global namespace but cannot be
opened for writing anywhere. -/
def w_c2 : World :=
  { ctx := 0, fdns := fun _ => none, nextFd := 10, selfNsOpenOk := true,
    sysctl := fun ns p =>
      if ns = 0 ∧ p = "/proc/sys/net/core/somaxconn" then some [5] else none,
    writable := fun _ _ => false, wopens := 0 }

/-- A module that resolves and whose three entry points all bind, with an
`init` that succeeds. -/
def mod_ok : TunerModule :=
  { resolvable := true, hasInit := true, initRet := 0, hasFini := true,
    hasEventHandler := true, name := "extra" }

/-- A registry already holding the compile-time maximum number of modules. -/
def regFull : Registry :=
  { tuners := (List.range BPFTUNE_MAX_TUNERS).map (fun i => mkTuner i mod_ok) }

/-- A world in which no sysctl path can be opened for reading. -/
def w_c5 : World :=
  { ctx := 0, fdns := fun _ => none, nextFd := 10, selfNsOpenOk := true,
    sysctl := fun _ _ => none, writable := fun _ _ => false, wopens := 0 }

/-- A world in which the sysctl file opens but its scan matches no value. -/
def w_c5b : World :=
  { w_c5 with sysctl := fun ns p =>
      if ns = 0 ∧ p = "/proc/sys/net/ipv4/tcp_fin_timeout" then some []
      else none }

def regEmpty : Registry := { tuners := [] }

/-- A resolvable module whose `init` entry point is missing. -/
def mod_noInit : TunerModule :=
  { resolvable := true, hasInit := false, initRet := 0, hasFini := true,
    hasEventHandler := true, name := "m1" }

/-- A resolvable module whose `event_handler` entry point is missing. -/
def mod_noHandler : TunerModule :=
  { resolvable := true, hasInit := true, initRet := 0, hasFini := true,
    hasEventHandler := false, name := "m2" }

def tunable_a : Bpftunable :=
  { desc := { name := "net.a", num_values := 1, namespaced := false, type := .sysctl },
    initial_values := [0, 0, 0], current_values := [1, 0, 0],
    stats_global := [1, 0], stats_nonglobal := [0, 0] }

def tunable_b : Bpftunable :=
  { desc := { name := "net.b", num_values := 1, namespaced := true, type := .sysctl },
    initial_values := [0, 0, 0], current_values := [2, 0, 0],
    stats_global := [0, 0], stats_nonglobal := [0, 2] }

/-- An active tuner with two tunables and two scenarios, with exactly two
non-zero occurrence counters: (tunable 0, scenario 0, global) and
(tunable 1, scenario 1, non-global). -/
def tuner_c9 : Bpftuner :=
  { id := 0, name := "t9", state := .active, hasFini := true,
    hasEventHandler := true, tunables := [tunable_a, tunable_b],
    scenarios := [{ name := "s0", description := "d0" },
                  { name := "s1", description := "d1" }],
    netnsCookies := [] }

def tuner_c8 : Bpftuner :=
  { id := 0, name := "t8", state := .active, hasFini := true,
    hasEventHandler := true, tunables := [], scenarios := [],
    netnsCookies := [] }

def reg_c8 : Registry := { tuners := [tuner_c8] }

/-- Like `w_c1`, but namespace `1` currently reads `4` (different from the
requested `5`) and the path is writable: the first write goes to the kernel,
the second is skipped. -/
def w_c4 : World :=
  { w_c1 with sysctl := fun ns p =>
      if ns = 1 ∧ p = "/proc/sys/net/core/somaxconn" then some [4] else none }

/-- Like `w_c4`, but namespace `1` already reads the requested `5`:
the write is skipped outright. -/
def w_c4a : World :=
  { w_c4 with sysctl := fun ns p =>
      if ns = 1 ∧ p = "/proc/sys/net/core/somaxconn" then some [5] else none }

/-! Theorems. -/

/-- Claim C1 (code bug): the namespace context is NOT always restored.  On the
idempotent-skip outcome of `bpftune_sysctl_write` with a non-zero namespace
descriptor, the call reports success but leaves the thread in the switched
namespace: starting from context `0` and writing the already-current value
into namespace `1` (via descriptor `3`) ends with context `1`, not `0`.
The `return 0` at line 645 bypasses the `out:` restore. -/
theorem c1_skip_does_not_restore_netns :
    w_c1.ctx = 0 ∧
    (bpftune_sysctl_write w_c1 3 "net.core.somaxconn" [5]).2 = 0 ∧
    (bpftune_sysctl_write w_c1 3 "net.core.somaxconn" [5]).1.ctx = 1 := by
  refine ⟨by decide, by decide, by decide⟩

/-- Claim C2 (code bug): a write whose kernel write step fails (the path
cannot be opened for writing) reports SUCCESS (`0`) and overwrites
`current_values` with the requested values, while the kernel still holds the
old value and exactly one open-for-write attempt failed.
`bpftune_sysctl_write` ends with `return 0` (line 665) on the open-failure
path, so `bpftuner_tunable_sysctl_write` takes its success branch. -/
theorem c2_failed_write_reports_success :
    (bpftuner_tunable_sysctl_write w_c2 tuner_c2 0 0 0 [7]).2.2 = 0 ∧
    ((bpftuner_tunable_sysctl_write w_c2 tuner_c2 0 0 0 [7]).2.1.tunables.map
      (fun tu => tu.current_values)) = [[7, 0, 0]] ∧
    (bpftuner_tunable_sysctl_write w_c2 tuner_c2 0 0 0 [7]).1.sysctl 0
      "/proc/sys/net/core/somaxconn" = some [5] ∧
    (bpftuner_tunable_sysctl_write w_c2 tuner_c2 0 0 0 [7]).1.wopens = 1 := by
  refine ⟨by decide, by decide, by decide, by decide⟩

/-- Claim C3 (code bug): loading into a registry that already holds
`BPFTUNE_MAX_TUNERS` modules does NOT fail with a capacity error:
`bpftuner_init` performs no capacity check and registers the module with
id `BPFTUNE_MAX_TUNERS`, growing the count to `BPFTUNE_MAX_TUNERS + 1`
(in the C, the store `bpftune_tuners[bpftune_num_tuners++]` is out of
bounds at that point). -/
theorem c3_load_at_capacity_unchecked :
    regFull.tuners.length = BPFTUNE_MAX_TUNERS ∧
    (bpftuner_init regFull mod_ok).2 = .ok BPFTUNE_MAX_TUNERS ∧
    (bpftuner_init regFull mod_ok).1.tuners.length = BPFTUNE_MAX_TUNERS + 1 ∧
    (bpftuner_init regFull mod_ok).1.tuners.take BPFTUNE_MAX_TUNERS =
      regFull.tuners := by
  refine ⟨by decide, by decide, by decide, by decide⟩

/-- Claim C5 (code bug): `bpftune_sysctl_read` does not return an error
result when the path cannot be opened, nor when the scan matches nothing:
in both cases it returns the value count `0` (the `out:` label returns
`num_values`, line 613; the computed `err` is dropped). -/
theorem c5_read_returns_count_not_error :
    (bpftune_sysctl_read w_c5 0 "net.ipv4.tcp_fin_timeout").2.1 = 0 ∧
    (bpftune_sysctl_read w_c5b 0 "net.ipv4.tcp_fin_timeout").2.1 = 0 := by
  refine ⟨by decide, by decide⟩

/-- Claim C7 (code bug): `bpftuner_init` never checks the three `dlsym`
results.  A resolvable module with a missing `init` entry point leads to
invoking a NULL function pointer (modelled as the `nullCall` outcome), not
to a clean load error; and a resolvable module with a missing
`event_handler` entry point is registered successfully instead of failing. -/
theorem c7_missing_entry_points_unchecked :
    (bpftuner_init regEmpty mod_noInit).2 = .nullCall ∧
    (bpftuner_init regEmpty mod_noHandler).2 = .ok 0 ∧
    (bpftuner_init regEmpty mod_noHandler).1.tuners.length = 1 := by
  refine ⟨by decide, by decide, by decide⟩

/-- Claim C6: every delivered event whose tuner id lies outside the
registry's live range (at or above the number of registered tuners) is
dropped with an error log line, no module handler is invoked, and the
per-event read callback returns `0` so polling continues. -/
theorem c6_invalid_tuner_id_dropped (reg : Registry) (size : Nat)
    (ev : BpftuneEvent) (h : reg.tuners.length ≤ ev.tuner_id) :
    bpftune_ringbuf_event_read reg size ev = (0, none, [LOG_ERR]) := by
  have htun : bpftune_tuner reg ev.tuner_id = none := by
    simp [bpftune_tuner, Nat.not_lt.mpr h]
  by_cases h1 : size < BPFTUNE_EVENT_HEADER_SIZE
  · simp [bpftune_ringbuf_event_read, h1]
  · by_cases h2 : BPFTUNE_MAX_TUNERS < ev.tuner_id
    · simp [bpftune_ringbuf_event_read, h1, h2]
    · simp [bpftune_ringbuf_event_read, h1, h2, htun]

/-- Witness for C6 at a concrete input: an empty registry and tuner id 5. -/
theorem c6_invalid_tuner_id_dropped_witness :
    regEmpty.tuners.length ≤ 5 ∧
    bpftune_ringbuf_event_read regEmpty 100
      { tuner_id := 5, scenario_id := 0, netns_cookie := 0 } =
      (0, none, [LOG_ERR]) :=
  ⟨by decide, c6_invalid_tuner_id_dropped regEmpty 100
    { tuner_id := 5, scenario_id := 0, netns_cookie := 0 } (by decide)⟩

/-- Claim C10: every record smaller than the fixed event-header layout is
dropped with an error log line, no module handler is invoked, and the
per-event read callback returns `0` so polling continues. -/
theorem c10_short_record_dropped (reg : Registry) (size : Nat)
    (ev : BpftuneEvent) (h : size < BPFTUNE_EVENT_HEADER_SIZE) :
    bpftune_ringbuf_event_read reg size ev = (0, none, [LOG_ERR]) := by
  simp [bpftune_ringbuf_event_read, h]

/-- Witness for C10 at a concrete input: a zero-sized record whose tuner id
is registered — it is still dropped. -/
theorem c10_short_record_dropped_witness :
    0 < BPFTUNE_EVENT_HEADER_SIZE ∧
    bpftune_ringbuf_event_read reg_c8 0
      { tuner_id := 0, scenario_id := 0, netns_cookie := 0 } =
      (0, none, [LOG_ERR]) :=
  ⟨by decide, c10_short_record_dropped reg_c8 0
    { tuner_id := 0, scenario_id := 0, netns_cookie := 0 } (by decide)⟩

/-- A single `bpftuner_netns_init` call (with the netns-cookie feature
supported, as at every call site in the source) preserves cookie
uniqueness: the existence check `bpftuner_netns_from_cookie` guards the
append. -/
theorem netns_init_preserves_unique (reg : Registry) (idx cookie : Nat)
    (hinv : netnsCookiesUnique reg) :
    netnsCookiesUnique (bpftuner_netns_init true reg idx cookie) := by
  unfold bpftuner_netns_init
  cases hg : reg.tuners.get? idx with
  | none => exact hinv
  | some t =>
    by_cases hf : bpftuner_netns_from_cookie true reg t.id cookie
    · simpa [hf] using hinv
    · have htmem : t ∈ reg.tuners := List.get?_mem hg
      have hnotin : cookie ∉ t.netnsCookies := by
        intro hc
        apply hf
        unfold bpftuner_netns_from_cookie
        simp only [Bool.not_eq_true, if_neg, not_true_eq_false, if_false,
          List.any_eq_true]
        exact ⟨t, htmem, by simp [hc]⟩
      simp only [hf, if_false]
      intro t' ht'
      rcases List.mem_or_eq_of_mem_set ht' with h | h
      · exact hinv t' h
      · subst h
        simp only [List.nodup_append, List.nodup_singleton]
        refine ⟨hinv t htmem, ?_, ?_⟩
        · trivial
        · simp [List.disjoint_singleton]
          exact hnotin

/-- Claim C8: invoking per-namespace initialisation any number of times —
any sequence of `bpftuner_netns_init` calls, hence in particular running the
discovery sweep twice — never produces two `NamespaceState` entries for the
same (module, cookie) pair: cookie uniqueness within each module's
namespace-state set is preserved.  (The hypothesis records that the
netns-cookie feature probe succeeded; every caller in the source reaches
`bpftuner_netns_init` only under that guard.) -/
theorem c8_netns_cookie_uniqueness (reg : Registry) (ops : List (Nat × Nat))
    (hinv : netnsCookiesUnique reg) :
    netnsCookiesUnique (bpftuner_netns_init_seq true reg ops) := by
  induction ops generalizing reg with
  | nil => exact hinv
  | cons op rest ih =>
    have hstep := netns_init_preserves_unique reg op.1 op.2 hinv
    simpa [bpftuner_netns_init_seq] using
      ih (bpftuner_netns_init true reg op.1 op.2) hstep

/-- Witness for C8 at a concrete input: initialising cookie 7 twice and
cookie 8 once yields exactly one entry per cookie. -/
theorem c8_netns_cookie_uniqueness_witness :
    netnsCookiesUnique reg_c8 ∧
    netnsCookiesUnique
      (bpftuner_netns_init_seq true reg_c8 [(0, 7), (0, 7), (0, 8)]) ∧
    (bpftuner_netns_init_seq true reg_c8 [(0, 7), (0, 7), (0, 8)]).tuners.map
      (fun t => t.netnsCookies) = [[7, 8]] :=
  ⟨by decide,
   c8_netns_cookie_uniqueness reg_c8 [(0, 7), (0, 7), (0, 8)] (by decide),
   by decide⟩

/-- Filtering distributes over `flatMap`. -/
theorem filter_flatMap_comm {α β : Type} (l : List α) (f : α → List β)
    (p : β → Bool) :
    (l.flatMap f).filter p = l.flatMap (fun a => (f a).filter p) := by
  induction l with
  | nil => rfl
  | cons a tl ih => simp [List.flatMap_cons, List.filter_append, ih]

/-- Mapping distributes over `flatMap`. -/
theorem map_flatMap_comm {α β γ : Type} (l : List α) (f : α → List β)
    (g : β → γ) :
    (l.flatMap f).map g = l.flatMap (fun a => (f a).map g) := by
  induction l with
  | nil => rfl
  | cons a tl ih => simp [List.flatMap_cons, ih]

/-- `flatMap` respects pointwise equality on the list's members. -/
theorem flatMap_congr_mem {α β : Type} {l : List α} {f g : α → List β}
    (h : ∀ a ∈ l, f a = g a) : l.flatMap f = l.flatMap g := by
  induction l with
  | nil => rfl
  | cons a tl ih =>
    simp only [List.flatMap_cons]
    rw [h a (by simp), ih (fun x hx => h x (by simp [hx]))]

/-- One inner step of the unload loop (global then non-global summary for a
fixed tunable/scenario pair) equals the zero-count filter over the two
scoped quads, in order. -/
theorem summary_eq_filter (t : Bpftuner) (i j : Nat) :
    bpftuner_scenario_log_summary t i j 0 ++ bpftuner_scenario_log_summary t i j 1 =
    (([(i, j, true), (i, j, false)] : List (Nat × Nat × Bool)).filter
       (fun q => finiQuadCount t q != 0)).map
      (fun q => FiniAction.summary q.1 q.2.1 q.2.2) := by
  unfold bpftuner_scenario_log_summary
  simp only [List.filter_cons, List.filter_nil]
  unfold finiQuadCount
  cases hg : bpftuner_tunable t i with
  | none => simp [hg]
  | some tu =>
    by_cases h1 : tu.stats_global[j]?.getD 0 = 0 <;>
    by_cases h2 : tu.stats_nonglobal[j]?.getD 0 = 0 <;>
      simp [hg, h1, h2]

/-- The summaries emitted by the unload loops are exactly the non-zero-count
quads of the canonical tunable-major, scenario-minor ordering. -/
theorem fini_summaries_eq (t : Bpftuner) :
    (List.range t.tunables.length).flatMap (fun i =>
      (List.range t.scenarios.length).flatMap (fun j =>
        bpftuner_scenario_log_summary t i j 0 ++
        bpftuner_scenario_log_summary t i j 1)) =
    ((finiQuadList t).filter (fun q => finiQuadCount t q != 0)).map
      (fun q => FiniAction.summary q.1 q.2.1 q.2.2) := by
  unfold finiQuadList
  rw [filter_flatMap_comm, map_flatMap_comm]
  refine flatMap_congr_mem (fun i _ => ?_)
  rw [filter_flatMap_comm, map_flatMap_comm]
  refine flatMap_congr_mem (fun j _ => ?_)
  exact summary_eq_filter t i j

/-- Claim C9: unload is a no-op when the module is absent or not active;
otherwise it emits exactly one summary per (tunable, scenario, scope)
triple with a non-zero occurrence counter — zero-count summaries emit
nothing — in tunable-index-major, scenario-index-minor order (global scope
before non-global within each pair), all before invoking the module's
`fini` entry point, and sets the requested final state. -/
theorem c9_unload_summaries (ot : Option Bpftuner) (fs : BpftuneState) :
    (ot = none → bpftuner_fini ot fs = (none, [])) ∧
    (∀ t, ot = some t → t.state ≠ BpftuneState.active →
      bpftuner_fini ot fs = (some t, [])) ∧
    (∀ t, ot = some t → t.state = BpftuneState.active →
      bpftuner_fini ot fs =
        (some { t with state := fs },
         ((finiQuadList t).filter (fun q => finiQuadCount t q != 0)).map
             (fun q => FiniAction.summary q.1 q.2.1 q.2.2) ++
           (if t.hasFini then [FiniAction.callFini] else []))) := by
  refine ⟨?_, ?_, ?_⟩
  · intro h; subst h; rfl
  · intro t h hstate; subst h
    simp [bpftuner_fini, hstate]
  · intro t h hstate; subst h
    simp only [bpftuner_fini, hstate, ne_eq, not_true_eq_false, if_false]
    rw [fini_summaries_eq]

/-- Witness for C9 at a concrete input: an active tuner with two tunables,
two scenarios and two non-zero counters yields exactly those two summaries
in order, followed by the `fini` invocation. -/
theorem c9_unload_summaries_witness :
    tuner_c9.state = BpftuneState.active ∧
    bpftuner_fini (some tuner_c9) .inactive =
      (some { tuner_c9 with state := .inactive },
       [FiniAction.summary 0 0 true, FiniAction.summary 1 1 false,
        FiniAction.callFini]) := by
  refine ⟨rfl, ?_⟩
  have h := (c9_unload_summaries (some tuner_c9) .inactive).2.2 tuner_c9 rfl rfl
  rw [h]
  decide

/-- Descriptor 0 means "no switch": `bpftune_netns_set` is the identity. -/
theorem netns_set_zero (w : World) (b : Bool) :
    bpftune_netns_set w 0 b = (w, 0, 0) := rfl

/-- A successful switch with the original context requested: the context
becomes the target namespace, the current context is captured on the fresh
descriptor `nextFd`, which is returned. -/
theorem netns_set_switch (w : World) (fd ns : Nat) (h0 : fd ≠ 0)
    (hok : w.selfNsOpenOk = true) (hfd : w.fdns fd = some ns) :
    bpftune_netns_set w fd true =
      ({ w with ctx := ns,
                fdns := fun x => if x = w.nextFd then some w.ctx else w.fdns x,
                nextFd := w.nextFd + 1 }, 0, w.nextFd) := by
  simp [bpftune_netns_set, h0, hok, hfd]

/-- A successful restore call (no original requested): the context changes,
the transient self-namespace descriptor is closed again. -/
theorem netns_set_restore (w : World) (fd ns : Nat) (h0 : fd ≠ 0)
    (hok : w.selfNsOpenOk = true) (hfd : w.fdns fd = some ns) :
    bpftune_netns_set w fd false =
      ({ w with ctx := ns, nextFd := w.nextFd + 1 }, 0, 0) := by
  simp [bpftune_netns_set, h0, hok, hfd]

/-- `bpftune_sysctl_read` with no namespace switch on a readable path:
the world is unchanged and at most three values are scanned. -/
theorem read_zero_some (w : World) (name : String) (vs : List Int)
    (h : w.sysctl w.ctx (bpftune_sysctl_name_to_path name) = some vs) :
    bpftune_sysctl_read w 0 name =
      (w, ((min vs.length BPFTUNE_MAX_VALUES : Nat) : Int),
       vs.take BPFTUNE_MAX_VALUES) := by
  simp [bpftune_sysctl_read, netns_set_zero, h]

/-- The idempotent-skip condition of `bpftune_sysctl_write` (count and
contents both match) holds exactly when the requested values equal the
readable values. -/
theorem skip_cond_iff (values old : List Int) :
    ((values.length : Int) = ((min old.length BPFTUNE_MAX_VALUES : Nat) : Int) ∧
     values = (old.take BPFTUNE_MAX_VALUES).take values.length) ↔
    values = old.take BPFTUNE_MAX_VALUES := by
  constructor
  · rintro ⟨h1, h2⟩
    have hlen : values.length = min old.length BPFTUNE_MAX_VALUES := by
      exact_mod_cast h1
    have hlen2 : (old.take BPFTUNE_MAX_VALUES).length = values.length := by
      simp [List.length_take, hlen, Nat.min_comm]
    rw [h2, ← hlen2, List.take_length]
  · intro h
    subst h
    refine ⟨?_, ?_⟩
    · simp [List.length_take, Nat.min_comm]
    · exact (List.take_length (old.take BPFTUNE_MAX_VALUES)).symm

/-- `bpftune_sysctl_write` without a namespace switch skips the write and
leaves the world untouched when the readable values already match. -/
theorem write_zero_skip (w : World) (name : String) (values old : List Int)
    (hold : w.sysctl w.ctx (bpftune_sysctl_name_to_path name) = some old)
    (heq : values = old.take BPFTUNE_MAX_VALUES) :
    bpftune_sysctl_write w 0 name values = (w, 0) := by
  have hc := (skip_cond_iff values old).mpr heq
  simp only [bpftune_sysctl_write, netns_set_zero,
    read_zero_some w name old hold]
  rw [if_neg (lt_irrefl 0), if_neg (not_lt.mpr (Int.natCast_nonneg _)),
      if_pos hc]

/-- `bpftune_sysctl_write` without a namespace switch, on a mismatch and a
writable path: one open-for-write, the path now holds the new values. -/
theorem write_zero_go (w : World) (name : String) (values old : List Int)
    (hold : w.sysctl w.ctx (bpftune_sysctl_name_to_path name) = some old)
    (hne : values ≠ old.take BPFTUNE_MAX_VALUES)
    (hw : w.writable w.ctx (bpftune_sysctl_name_to_path name) = true) :
    bpftune_sysctl_write w 0 name values =
      ({ w with wopens := w.wopens + 1,
                sysctl := fun ns p =>
                  if ns = w.ctx ∧ p = bpftune_sysctl_name_to_path name
                  then some values else w.sysctl ns p }, 0) := by
  simp only [bpftune_sysctl_write, netns_set_zero,
    read_zero_some w name old hold]
  rw [if_neg (lt_irrefl 0), if_neg (not_lt.mpr (Int.natCast_nonneg _)),
      if_neg (fun hc => hne ((skip_cond_iff values old).mp hc)),
      if_pos hw]

/-- `bpftune_sysctl_write` with a namespace switch skips the write when the
readable values already match — and (line 645) returns with the context
still switched to the target namespace. -/
theorem write_switch_skip (w : World) (fd tgt : Nat) (name : String)
    (values old : List Int) (h0 : fd ≠ 0) (hok : w.selfNsOpenOk = true)
    (hfd : w.fdns fd = some tgt)
    (hold : w.sysctl tgt (bpftune_sysctl_name_to_path name) = some old)
    (heq : values = old.take BPFTUNE_MAX_VALUES) :
    bpftune_sysctl_write w fd name values =
      ({ w with ctx := tgt,
                fdns := fun x => if x = w.nextFd then some w.ctx else w.fdns x,
                nextFd := w.nextFd + 1 }, 0) := by
  have hc := (skip_cond_iff values old).mpr heq
  simp only [bpftune_sysctl_write, netns_set_switch w fd tgt h0 hok hfd]
  rw [if_neg (lt_irrefl (0 : Int))]
  rw [read_zero_some
    ({ w with ctx := tgt,
              fdns := fun x => if x = w.nextFd then some w.ctx else w.fdns x,
              nextFd := w.nextFd + 1 }) name old hold]
  rw [if_neg (not_lt.mpr (Int.natCast_nonneg _)), if_pos hc]

/-- `bpftune_sysctl_write` with a namespace switch, on a mismatch and a
writable path: one open-for-write, the target namespace now holds the new
values, and the context is restored. -/
theorem write_switch_go (w : World) (fd tgt : Nat) (name : String)
    (values old : List Int) (h0 : fd ≠ 0) (hok : w.selfNsOpenOk = true)
    (hfd : w.fdns fd = some tgt) (hnz : w.nextFd ≠ 0)
    (hold : w.sysctl tgt (bpftune_sysctl_name_to_path name) = some old)
    (hne : values ≠ old.take BPFTUNE_MAX_VALUES)
    (hw : w.writable tgt (bpftune_sysctl_name_to_path name) = true) :
    bpftune_sysctl_write w fd name values =
      ({ w with
          fdns := fun x => if x = w.nextFd then some w.ctx else w.fdns x,
          nextFd := w.nextFd + 2,
          wopens := w.wopens + 1,
          sysctl := fun ns p =>
            if ns = tgt ∧ p = bpftune_sysctl_name_to_path name
            then some values else w.sysctl ns p }, 0) := by
  simp only [bpftune_sysctl_write, netns_set_switch w fd tgt h0 hok hfd]
  rw [if_neg (lt_irrefl (0 : Int))]
  rw [read_zero_some
    ({ w with ctx := tgt,
              fdns := fun x => if x = w.nextFd then some w.ctx else w.fdns x,
              nextFd := w.nextFd + 1 }) name old hold]
  rw [if_neg (not_lt.mpr (Int.natCast_nonneg _)),
      if_neg (fun hc => hne ((skip_cond_iff values old).mp hc)),
      if_pos hw]
  simp [bpftune_netns_set, hnz, hok]

theorem c4_write_idempotence
    (w : World) (netnsFd tgt : Nat) (name : String) (values old : List Int)
    (hsw : (netnsFd = 0 ∧ tgt = w.ctx) ∨
           (netnsFd ≠ 0 ∧ w.selfNsOpenOk = true ∧ w.fdns netnsFd = some tgt))
    (hold : w.sysctl tgt (bpftune_sysctl_name_to_path name) = some old)
    (hfresh : w.fdns w.nextFd = none)
    (hnz : w.nextFd ≠ 0)
    (hlen : values.length ≤ BPFTUNE_MAX_VALUES) :
    (values = old.take BPFTUNE_MAX_VALUES →
      (bpftune_sysctl_write w netnsFd name values).2 = 0 ∧
      (bpftune_sysctl_write w netnsFd name values).1.wopens = w.wopens ∧
      (bpftune_sysctl_write w netnsFd name values).1.sysctl = w.sysctl) ∧
    (values ≠ old.take BPFTUNE_MAX_VALUES →
     w.writable tgt (bpftune_sysctl_name_to_path name) = true →
      (bpftune_sysctl_write w netnsFd name values).2 = 0 ∧
      (bpftune_sysctl_write
        (bpftune_sysctl_write w netnsFd name values).1 netnsFd name values).2 = 0 ∧
      (bpftune_sysctl_write
        (bpftune_sysctl_write w netnsFd name values).1 netnsFd name values).1.wopens
        = w.wopens + 1) := by
  have hvals : values.take BPFTUNE_MAX_VALUES = values :=
    List.take_of_length_le hlen
  constructor
  · intro heq
    rcases hsw with ⟨h0, htgt⟩ | ⟨h0, hok, hfd⟩
    · subst h0; subst htgt
      rw [write_zero_skip w name values old hold heq]
      exact ⟨rfl, rfl, rfl⟩
    · rw [write_switch_skip w netnsFd tgt name values old h0 hok hfd hold heq]
      exact ⟨rfl, rfl, rfl⟩
  · intro hne hw
    rcases hsw with ⟨h0, htgt⟩ | ⟨h0, hok, hfd⟩
    · subst h0; subst htgt
      rw [write_zero_go w name values old hold hne hw]
      rw [write_zero_skip
        ({ w with wopens := w.wopens + 1,
                  sysctl := fun ns p =>
                    if ns = w.ctx ∧ p = bpftune_sysctl_name_to_path name
                    then some values else w.sysctl ns p })
        name values values (by simp) hvals.symm]
      exact ⟨rfl, rfl, rfl⟩
    · have hne' : netnsFd ≠ w.nextFd := by
        intro h
        rw [h, hfresh] at hfd
        exact Option.noConfusion hfd
      rw [write_switch_go w netnsFd tgt name values old h0 hok hfd hnz hold hne hw]
      rw [write_switch_skip
        ({ w with
            fdns := fun x => if x = w.nextFd then some w.ctx else w.fdns x,
            nextFd := w.nextFd + 2,
            wopens := w.wopens + 1,
            sysctl := fun ns p =>
              if ns = tgt ∧ p = bpftune_sysctl_name_to_path name
              then some values else w.sysctl ns p })
        netnsFd tgt name values values h0 hok (by simp [hne', hfd])
        (by simp) hvals.symm]
      exact ⟨rfl, rfl, rfl⟩

/-- Witness for C4 at concrete inputs: writing `[5]` over `[4]` in
namespace 1 twice performs exactly one open-for-write, and writing `[5]`
over `[5]` performs none. -/
theorem c4_write_idempotence_witness :
    (w_c4.selfNsOpenOk = true ∧ w_c4.fdns 3 = some 1 ∧
     w_c4.sysctl 1 (bpftune_sysctl_name_to_path "net.core.somaxconn") = some [4] ∧
     w_c4.fdns w_c4.nextFd = none ∧ w_c4.nextFd ≠ 0 ∧
     ([5] : List Int) ≠ ([4] : List Int).take BPFTUNE_MAX_VALUES ∧
     w_c4.writable 1 (bpftune_sysctl_name_to_path "net.core.somaxconn") = true) ∧
    (bpftune_sysctl_write w_c4 3 "net.core.somaxconn" [5]).2 = 0 ∧
    (bpftune_sysctl_write (bpftune_sysctl_write w_c4 3 "net.core.somaxconn" [5]).1
      3 "net.core.somaxconn" [5]).2 = 0 ∧
    (bpftune_sysctl_write (bpftune_sysctl_write w_c4 3 "net.core.somaxconn" [5]).1
      3 "net.core.somaxconn" [5]).1.wopens = w_c4.wopens + 1 ∧
    w_c4a.sysctl 1 (bpftune_sysctl_name_to_path "net.core.somaxconn") = some [5] ∧
    (bpftune_sysctl_write w_c4a 3 "net.core.somaxconn" [5]).2 = 0 ∧
    (bpftune_sysctl_write w_c4a 3 "net.core.somaxconn" [5]).1.wopens = w_c4a.wopens := by
  have hB := (c4_write_idempotence w_c4 3 1 "net.core.somaxconn" [5] [4]
    (Or.inr ⟨by decide, by decide, by decide⟩) (by decide) (by decide)
    (by decide) (by decide)).2 (by decide) (by decide)
  have hA := (c4_write_idempotence w_c4a 3 1 "net.core.somaxconn" [5] [5]
    (Or.inr ⟨by decide, by decide, by decide⟩) (by decide) (by decide)
    (by decide) (by decide)).1 (by decide)
  exact ⟨⟨by decide, by decide, by decide, by decide, by decide, by decide,
    by decide⟩, hB.1, hB.2.1, hB.2.2, by decide, hA.1, hA.2.1⟩
